import Mathlib

/-!
Shallow embedding of the coordination core of netease-cloud-music-gtk
(src/app.rs): the Action command union, the crossbeam channel wiring, the
dispatcher poll loop (App::setup_action_channel), the notification slot
handling, and the shared generation-guard cell created in App::new.

Downstream surfaces (View, Header, Player) are external collaborators: we
model each of their methods invoked by the dispatcher as an emitted Event,
and the notification slot (the only state the dispatcher mutates itself)
explicitly as an Option held in the app state.
-/

namespace NCMGtk

/-- Modelled from the spec: payload record of the login session
(musicapi::model::LoginInfo, outside the coordination core). The spec treats
payload types as plain data records with no behavior, so it is opaque data. -/
structure LoginInfo where
  data : Nat
deriving DecidableEq

/-- Modelled from the spec: track-info payload record
(musicapi::model::SongInfo, outside the coordination core); opaque data. -/
structure SongInfo where
  data : Nat
deriving DecidableEq

/-- Modelled from the spec: playlist-summary payload record
(musicapi::model::SongList, outside the coordination core); opaque data. -/
structure SongList where
  data : Nat
deriving DecidableEq

/-- Modelled from the spec: player-kind payload (utils::PlayerTypes, outside
the coordination core); opaque data. -/
structure PlayerTypes where
  data : Nat
deriving DecidableEq

/-- Modelled from the spec: a transient in-app notification widget
(widgets::notice::InAppNotification, outside the coordination core),
constructed from the notice text. -/
structure InAppNotification where
  text : String
deriving DecidableEq

/-- Modelled from the spec: widgets::mark_all_notif constructs a new transient
notification from the given text. -/
def mark_all_notif (text : String) : InAppNotification :=
  { text := text }

/-- The Action enum of src/app.rs (the closed Command union). Machine-integer
payloads carry no arithmetic in the dispatcher, so u32 and u8 are Nat and
i32 is Int. -/
inductive Action where
  | SwitchStackMain
  | SwitchStackSub (payload : Nat × String × String)
  | SwitchHeaderBar (title : String)
  | RefreshHeaderUser
  | RefreshHeaderUserLogin (li : LoginInfo)
  | RefreshHeaderUserLogout
  | RefreshHome
  | RefreshHomeView (tsl : List SongList) (rr : List SongList)
  | RefreshSubUpView (name : String) (image_path : String)
  | RefreshSubLowView (song_list : List SongInfo)
  | RefreshFoundViewInit (id : Nat)
  | RefreshFoundView (song_list : List SongInfo)
  | RefreshMine
  | MineHideAll
  | MineShowFm
  | RefreshMineViewInit (id : Int)
  | RefreshMineView (song_list : List SongInfo) (title : String)
  | RefreshMineFm (si : SongInfo)
  | RefreshMineSidebar (vsl : List SongList)
  | PlayerFm
  | FmLike
  | FmDislike
  | RefreshMineFmPlayerList
  | CancelCollection
  | Search (text : String)
  | PlayerInit (info : SongInfo) (pt : PlayerTypes)
  | Player (info : SongInfo) (url : String)
  | PlayerSubpages
  | PlayerFound
  | PlayerMine
  | Login (name : String) (pass : String)
  | Logout
  | ShowNotice (text : String)
  | DailyTask
deriving DecidableEq

/-- The downstream components the dispatcher routes to (spec section 4.2):
the View surface, the Header surface, the Player surface and the
notification slot. -/
inductive Component where
  | view
  | header
  | player
  | notice
deriving DecidableEq

/-- Micro-operations performed by the Action::ShowNotice branch of
setup_action_channel, in order: mark_all_notif construction, the
RefCell::replace of the slot (which installs the new value and takes the
old one out in a single swap), InAppNotification::destroy of the old one,
and InAppNotification::show of the new one (named display here). -/
inductive NoticeOp where
  | construct (n : InAppNotification)
  | replace_slot (n : InAppNotification) (old : Option InAppNotification)
  | destroy (n : InAppNotification)
  | display (n : InAppNotification)
deriving DecidableEq

/-- One downstream method invocation emitted by the dispatcher match in
setup_action_channel; each constructor mirrors one call site. -/
inductive Event where
  | header_switch_header (title : String)
  | header_update_user_button
  | header_update_user_login (li : LoginInfo)
  | header_update_user_logout
  | view_update_home
  | view_update_home_view (tsl : List SongList) (rr : List SongList)
  | view_update_sub_up_view (name : String) (image_path : String)
  | view_update_sub_low_view (song_list : List SongInfo)
  | view_switch_stack_main
  | view_switch_stack_sub (id : Nat) (name : String) (image_path : String)
  | view_update_found_view_data (id : Nat)
  | view_update_found_view (song_list : List SongInfo)
  | view_mine_init
  | view_mine_hide_all
  | view_mine_show_fm
  | view_update_mine_view_data (id : Int)
  | view_update_mine_view (song_list : List SongInfo) (title : String)
  | view_update_mine_fm (si : SongInfo)
  | view_update_mine_sidebar (vsl : List SongList)
  | view_refresh_fm_player_list
  | view_play_fm
  | view_like_fm
  | player_forward
  | view_dislike_fm
  | view_cancel_collection
  | view_switch_stack_search (text : String)
  | header_login (name : String) (pass : String)
  | header_logout
  | header_daily_task
  | player_initialize_player (info : SongInfo) (pt : PlayerTypes)
  | player_player (info : SongInfo) (url : String)
  | view_play_subpages
  | view_play_found
  | view_play_mine
  | notice (op : NoticeOp)
deriving DecidableEq

/-- Which downstream component an emitted call targets. -/
def component : Event → Component
  | Event.header_switch_header _ => Component.header
  | Event.header_update_user_button => Component.header
  | Event.header_update_user_login _ => Component.header
  | Event.header_update_user_logout => Component.header
  | Event.view_update_home => Component.view
  | Event.view_update_home_view _ _ => Component.view
  | Event.view_update_sub_up_view _ _ => Component.view
  | Event.view_update_sub_low_view _ => Component.view
  | Event.view_switch_stack_main => Component.view
  | Event.view_switch_stack_sub _ _ _ => Component.view
  | Event.view_update_found_view_data _ => Component.view
  | Event.view_update_found_view _ => Component.view
  | Event.view_mine_init => Component.view
  | Event.view_mine_hide_all => Component.view
  | Event.view_mine_show_fm => Component.view
  | Event.view_update_mine_view_data _ => Component.view
  | Event.view_update_mine_view _ _ => Component.view
  | Event.view_update_mine_fm _ => Component.view
  | Event.view_update_mine_sidebar _ => Component.view
  | Event.view_refresh_fm_player_list => Component.view
  | Event.view_play_fm => Component.view
  | Event.view_like_fm => Component.view
  | Event.player_forward => Component.player
  | Event.view_dislike_fm => Component.view
  | Event.view_cancel_collection => Component.view
  | Event.view_switch_stack_search _ => Component.view
  | Event.header_login _ _ => Component.header
  | Event.header_logout => Component.header
  | Event.header_daily_task => Component.header
  | Event.player_initialize_player _ _ => Component.player
  | Event.player_player _ _ => Component.player
  | Event.view_play_subpages => Component.view
  | Event.view_play_found => Component.view
  | Event.view_play_mine => Component.view
  | Event.notice _ => Component.notice

/-- The crossbeam unbounded channel for Action values, seen from the single
consumer. Modelled from the spec (section 4.1) since the channel itself is a
library outside this repository: a FIFO queue of pending Commands plus
whether the producer side is still connected; try_recv yields buffered
messages first and reports Disconnected only when empty and disconnected. -/
structure Channel where
  queue : List Action
  connected : Bool
deriving DecidableEq

/-- crossbeam_channel::TryRecvError as matched in setup_action_channel. -/
inductive TryRecvError where
  | Empty
  | Disconnected
deriving DecidableEq

/-- Non-blocking receive on the consuming end. -/
def try_recv (c : Channel) : Except TryRecvError (Action × Channel) :=
  match c.queue with
  | [] =>
    Except.error (if c.connected then TryRecvError.Empty else TryRecvError.Disconnected)
  | a :: rest => Except.ok (a, { queue := rest, connected := c.connected })

/-- Non-blocking send: appends to the queue (per-producer FIFO order). -/
def send (c : Channel) (a : Action) : Channel :=
  { c with queue := c.queue ++ [a] }

/-- The micro-operation trace of the Action::ShowNotice branch, given the
current slot content: construct via mark_all_notif, RefCell::replace the
slot with the new notification (taking the old out), destroy the old one if
present, then show the new one on the overlay. -/
def show_notice_steps (slot : Option InAppNotification) (text : String) : List NoticeOp :=
  let notif := mark_all_notif text
  NoticeOp.construct notif ::
    NoticeOp.replace_slot notif slot ::
      ((match slot with
        | some old => [NoticeOp.destroy old]
        | none => []) ++ [NoticeOp.display notif])

/-- Slot content after the Action::ShowNotice branch runs. -/
def show_notice_slot (slot : Option InAppNotification) (text : String) : Option InAppNotification :=
  let _ := slot
  some (mark_all_notif text)

/-- The body of the match in setup_action_channel: given the current
notification slot, handling one Action yields the new slot content and the
list of downstream calls made, in program order. -/
def handle_action (slot : Option InAppNotification) :
    Action → Option InAppNotification × List Event
  | Action.SwitchHeaderBar title => (slot, [Event.header_switch_header title])
  | Action.RefreshHeaderUser => (slot, [Event.header_update_user_button])
  | Action.RefreshHeaderUserLogin login_info =>
    (slot, [Event.header_update_user_login login_info])
  | Action.RefreshHeaderUserLogout => (slot, [Event.header_update_user_logout])
  | Action.RefreshHome => (slot, [Event.view_update_home])
  | Action.RefreshHomeView tsl rr => (slot, [Event.view_update_home_view tsl rr])
  | Action.RefreshSubUpView name image_path =>
    (slot, [Event.view_update_sub_up_view name image_path])
  | Action.RefreshSubLowView song_list =>
    (slot, [Event.view_update_sub_low_view song_list])
  | Action.SwitchStackMain => (slot, [Event.view_switch_stack_main])
  | Action.SwitchStackSub (id, name, image_path) =>
    (slot, [Event.view_switch_stack_sub id name image_path])
  | Action.RefreshFoundViewInit id => (slot, [Event.view_update_found_view_data id])
  | Action.RefreshFoundView song_list => (slot, [Event.view_update_found_view song_list])
  | Action.RefreshMine => (slot, [Event.view_mine_init])
  | Action.MineHideAll => (slot, [Event.view_mine_hide_all])
  | Action.MineShowFm => (slot, [Event.view_mine_show_fm])
  | Action.RefreshMineViewInit id => (slot, [Event.view_update_mine_view_data id])
  | Action.RefreshMineView song_list title =>
    (slot, [Event.view_update_mine_view song_list title])
  | Action.RefreshMineFm si => (slot, [Event.view_update_mine_fm si])
  | Action.RefreshMineSidebar vsl => (slot, [Event.view_update_mine_sidebar vsl])
  | Action.RefreshMineFmPlayerList => (slot, [Event.view_refresh_fm_player_list])
  | Action.PlayerFm => (slot, [Event.view_play_fm])
  | Action.FmLike => (slot, [Event.view_like_fm])
  | Action.FmDislike => (slot, [Event.player_forward, Event.view_dislike_fm])
  | Action.CancelCollection => (slot, [Event.view_cancel_collection])
  | Action.Search text => (slot, [Event.view_switch_stack_search text])
  | Action.Login name pass => (slot, [Event.header_login name pass])
  | Action.Logout => (slot, [Event.header_logout])
  | Action.DailyTask => (slot, [Event.header_daily_task])
  | Action.PlayerInit info pt => (slot, [Event.player_initialize_player info pt])
  | Action.Player info url => (slot, [Event.player_player info url])
  | Action.ShowNotice text =>
    (show_notice_slot slot text, (show_notice_steps slot text).map Event.notice)
  | Action.PlayerSubpages => (slot, [Event.view_play_subpages])
  | Action.PlayerFound => (slot, [Event.view_play_found])
  | Action.PlayerMine => (slot, [Event.view_play_mine])

/-- The dispatcher-owned mutable state: the consuming channel end and the
notification slot (App.receiver and App.notice). -/
structure AppState where
  chan : Channel
  notice : Option InAppNotification
deriving DecidableEq

/-- Return value of one poll tick: glib::Continue(bool), or the panic raised
by the unreachable branch. -/
inductive PollOutcome where
  | Continue (b : Bool)
  | panicked (msg : String)
deriving DecidableEq

/-- App::setup_action_channel, one poll tick: one try_recv; on Empty return
Continue(true) untouched; on Disconnected hit the unreachable panic; on Ok
route the single Action through the match and return Continue(true). -/
def setup_action_channel (s : AppState) : PollOutcome × AppState × List Event :=
  match try_recv s.chan with
  | Except.error TryRecvError.Empty => (PollOutcome.Continue true, s, [])
  | Except.error TryRecvError.Disconnected =>
    (PollOutcome.panicked "How the hell was the action channel dropped.", s, [])
  | Except.ok (a, rest) =>
    let r := handle_action s.notice a
    (PollOutcome.Continue true, { chan := rest, notice := r.1 }, r.2)

/-- Run n successive poll ticks, accumulating the emitted downstream calls;
a panic stops the run. -/
def run_ticks : Nat → AppState → AppState × List Event
  | 0, s => (s, [])
  | Nat.succ n, s =>
    match setup_action_channel s with
    | (PollOutcome.Continue _, s2, evs) =>
      let r := run_ticks n s2
      (r.1, evs ++ r.2)
    | (PollOutcome.panicked _, s2, evs) => (s2, evs)

/-- Reference order: apply a list of Actions through handle_action in list
order, threading the notification slot and concatenating the emitted calls. -/
def apply_in_order (slot : Option InAppNotification) :
    List Action → Option InAppNotification × List Event
  | [] => (slot, [])
  | a :: rest =>
    let r := handle_action slot a
    let r2 := apply_in_order r.1 rest
    (r2.1, r.2 ++ r2.2)

/-- Notifications destroyed over a list of emitted calls. -/
def destroyed_in (evs : List Event) : List InAppNotification :=
  evs.filterMap fun e =>
    match e with
    | Event.notice (NoticeOp.destroy n) => some n
    | _ => none

/-- First index of a micro-operation satisfying p. -/
def find_index (p : NoticeOp → Bool) : List NoticeOp → Option Nat
  | [] => none
  | op :: rest => if p op then some 0 else (find_index p rest).map (· + 1)

/-- Whether a micro-operation installs the given new notification into the
slot (the RefCell::replace step). -/
def op_installs (n0 : InAppNotification) : NoticeOp → Bool
  | NoticeOp.replace_slot n _ => n == n0
  | _ => false

/-- Whether a micro-operation destroys the given notification. -/
def op_destroys (n0 : InAppNotification) : NoticeOp → Bool
  | NoticeOp.destroy n => n == n0
  | _ => false

/-- Whether a micro-operation displays the given notification. -/
def op_displays (n0 : InAppNotification) : NoticeOp → Bool
  | NoticeOp.display n => n == n0
  | _ => false

/-- Formalisation of the claimed ShowNotice ordering with an occupied slot:
the old notification is destroyed strictly before the new one is installed
into the slot. -/
def destroyed_before_installed (old : InAppNotification) (text : String) : Bool :=
  let steps := show_notice_steps (some old) text
  match find_index (op_destroys old) steps, find_index (op_installs (mark_all_notif text)) steps with
  | some i, some j => i < j
  | _, _ => false

/-- True when every emitted call of the list targets one single component. -/
def one_component (evs : List Event) : Bool :=
  match evs with
  | [] => false
  | e :: rest => rest.all fun x => component x == component e

/-- Modelled from the spec (section 4.4): the generation-guard check run by a
background task on completion, inside the View, Header and Player components
whose sources are outside this file: the task captured the guard value when
it started, and only hands back its result Command when the captured value
still equals the current one; otherwise the stale result is silently
dropped. -/
def complete_background_task (captured current : Nat) (result : Action) : Option Action :=
  if captured = current then some result else none

/-- Enqueue the outcome of a completed background task: nothing is sent when
the generation check dropped the result. -/
def enqueue_result (c : Channel) : Option Action → Channel
  | none => c
  | some a => send c a

/-- Modelled from the spec (section 4.4): advance() increments the shared
counter; the cell is the u8 created in App::new, so the increment wraps
modulo 2 to the 8. -/
def advance (g : Nat) : Nat := (g + 1) % 256

/-- The guard wiring performed by App::new: one Arc cell holding 0u8 is
allocated (modelled as a one-cell store at reference index 0) and the same
Arc is cloned into View::new, Header::new and PlayerWrapper::new. -/
structure GuardWiring where
  cells : List Nat
  data_ref : Nat
  view_ref : Nat
  header_ref : Nat
  player_ref : Nat
deriving DecidableEq

/-- Arc::clone yields a reference to the same cell. -/
def arc_clone (r : Nat) : Nat := r

/-- The data-lock allocation lines of App::new: Arc::new(Mutex::new(0u8))
then data.clone() passed to each of View::new, Header::new,
PlayerWrapper::new. -/
def app_new_guard : GuardWiring :=
  let data : Nat := 0
  { cells := [0]
    data_ref := data
    view_ref := arc_clone data
    header_ref := arc_clone data
    player_ref := arc_clone data }

/-- Helper: sending a list of Actions appends them to the queue in order. -/
theorem foldl_send (cmds : List Action) (c : Channel) :
    List.foldl send c cmds = { queue := c.queue ++ cmds, connected := c.connected } := by
  induction cmds generalizing c with
  | nil => simp
  | cons a rest ih => simp [send, ih]

/-- Helper: polling once per queued Action from a connected channel applies
the queued Actions through handle_action in queue order. -/
theorem run_ticks_apply (cmds : List Action) (slot : Option InAppNotification) :
    run_ticks cmds.length ⟨⟨cmds, true⟩, slot⟩ =
      (⟨⟨[], true⟩, (apply_in_order slot cmds).1⟩, (apply_in_order slot cmds).2) := by
  induction cmds generalizing slot with
  | nil => simp [run_ticks, apply_in_order]
  | cons a rest ih =>
    simp [run_ticks, setup_action_channel, try_recv, apply_in_order, ih]

/-- Helper: one unfolding step of apply_in_order. -/
theorem apply_in_order_cons (slot : Option InAppNotification) (a : Action)
    (rest : List Action) :
    apply_in_order slot (a :: rest) =
      ((apply_in_order (handle_action slot a).1 rest).1,
        (handle_action slot a).2 ++ (apply_in_order (handle_action slot a).1 rest).2) :=
  rfl

/-- Helper: destroyed_in distributes over concatenation. -/
theorem destroyed_in_append (l1 l2 : List Event) :
    destroyed_in (l1 ++ l2) = destroyed_in l1 ++ destroyed_in l2 := by
  simp [destroyed_in]

/-- Helper: effect of applying a list of ShowNotice Actions on the slot and
on the set of destroyed notifications. -/
theorem show_seq (texts : List String) (slot : Option InAppNotification) :
    (apply_in_order slot (texts.map Action.ShowNotice)).1 =
      (match texts.getLast? with
       | some t => some (mark_all_notif t)
       | none => slot) ∧
    destroyed_in (apply_in_order slot (texts.map Action.ShowNotice)).2 =
      (match texts with
       | [] => []
       | _ :: _ => slot.toList ++ texts.dropLast.map mark_all_notif) := by
  induction texts generalizing slot with
  | nil => simp [apply_in_order, destroyed_in]
  | cons t ts ih =>
    cases ts with
    | nil =>
      cases slot <;>
        simp [apply_in_order, handle_action, show_notice_slot, show_notice_steps,
          destroyed_in]
    | cons u us =>
      have hv : (u :: us).getLast? = some ((u :: us).getLast (List.cons_ne_nil u us)) :=
        List.getLast?_eq_getLast_of_ne_nil (List.cons_ne_nil u us)
      obtain ⟨ha, hb⟩ := ih (some (mark_all_notif t))
      rw [hv] at ha
      constructor
      · rw [List.getLast?_cons_cons, hv, List.map_cons, apply_in_order_cons]
        simpa [handle_action, show_notice_slot] using ha
      · rw [List.map_cons, apply_in_order_cons]
        simp only [handle_action, show_notice_slot]
        rw [destroyed_in_append, hb]
        cases slot <;>
          simp [show_notice_steps, destroyed_in, List.dropLast_cons₂]

/-- Helper: iterating advance adds modulo 2 to the 8. -/
theorem advance_iterate (n g : Nat) (h : g < 256) :
    advance^[n] g = (g + n) % 256 := by
  induction n with
  | zero => simpa using (Nat.mod_eq_of_lt h).symm
  | succ k ih =>
    rw [Function.iterate_succ_apply', ih]
    simp only [advance]
    omega

/-- C1: a single poll tick of setup_action_channel removes at most one
Command from the channel (the queue loses at most its head) and routes at
most one Command through the match (the emitted calls are exactly those of
handle_action on the head, or none). -/
theorem dispatch_tick_at_most_one (s : AppState) :
    (setup_action_channel s).2.1.chan.queue = s.chan.queue.drop 1 ∧
    (setup_action_channel s).2.2 =
      (match s.chan.queue.head? with
       | none => []
       | some a => (handle_action s.notice a).2) := by
  obtain ⟨⟨q, conn⟩, slot⟩ := s
  cases q <;> cases conn <;> simp [setup_action_channel, try_recv]

/-- C2 counterexample: the Action::FmDislike branch makes two downstream
calls on two distinct components, Player::forward then View::dislike_fm,
refuting the claim that every variant results in exactly one handler call
on exactly one downstream component. -/
theorem fm_dislike_two_components :
    one_component (handle_action none Action.FmDislike).2 = false ∧
      ((handle_action none Action.FmDislike).2).length = 2 ∧
      ((handle_action none Action.FmDislike).2).map component =
        [Component.player, Component.view] := by decide

/-- C2 amended: every Action variant other than FmDislike routes to calls on
one single downstream component, and every variant other than FmDislike and
ShowNotice makes exactly one downstream call. -/
theorem dispatch_single_component (slot : Option InAppNotification) (a : Action)
    (h : a ≠ Action.FmDislike) :
    one_component (handle_action slot a).2 = true ∧
      ((∀ t, a ≠ Action.ShowNotice t) → ((handle_action slot a).2).length = 1) := by
  cases a
  case FmDislike => exact absurd rfl h
  case ShowNotice text =>
    refine ⟨?_, fun hn => absurd rfl (hn text)⟩
    cases slot <;>
      simp [handle_action, one_component, component, show_notice_steps]
  case SwitchStackSub payload =>
    obtain ⟨id, nm, pth⟩ := payload
    simp [handle_action, one_component]
  all_goals simp [handle_action, one_component]

/-- C2 witness: instantiation at the Logout Action. -/
theorem dispatch_single_component_witness :
    one_component (handle_action none Action.Logout).2 = true ∧
      ((∀ t, Action.Logout ≠ Action.ShowNotice t) →
        ((handle_action none Action.Logout).2).length = 1) :=
  dispatch_single_component none Action.Logout fun hc => Action.noConfusion hc

/-- C3: a background task that captured generation g1 and completes when the
current generation is g2 with g1 smaller than g2 produces no result Command
and enqueues nothing: the stale result is silently dropped. -/
theorem stale_generation_dropped (g1 g2 : Nat) (result : Action) (c : Channel)
    (h : g1 < g2) :
    complete_background_task g1 g2 result = none ∧
      enqueue_result c (complete_background_task g1 g2 result) = c := by
  have hne : g1 ≠ g2 := Nat.ne_of_lt h
  simp [complete_background_task, enqueue_result, hne]

/-- C3 witness: instantiation at generations 1 and 2. -/
theorem stale_generation_dropped_witness :
    complete_background_task 1 2 Action.Logout = none ∧
      enqueue_result { queue := [], connected := true }
        (complete_background_task 1 2 Action.Logout) =
        { queue := [], connected := true } :=
  stale_generation_dropped 1 2 Action.Logout { queue := [], connected := true }
    (by decide)

/-- C4 counterexample: with an occupied slot, the ShowNotice branch does not
destroy the old notification before installing the new one: the
RefCell::replace installs the new one at step 1 and the old one is only
destroyed at step 2. -/
theorem show_notice_destroy_after_install :
    destroyed_before_installed { text := "a" } "b" = false := by decide

/-- C4 amended: with an occupied slot, the ShowNotice branch installs the new
notification into the slot in the same atomic replace step that takes the
old one out (step 1), destroys the old one next (step 2), and only then
displays the new one (step 3); afterwards the slot holds exactly the new
notification. -/
theorem show_notice_sequencing (old : InAppNotification) (text : String) :
    find_index (op_installs (mark_all_notif text)) (show_notice_steps (some old) text) =
      some 1 ∧
    find_index (op_destroys old) (show_notice_steps (some old) text) = some 2 ∧
    find_index (op_displays (mark_all_notif text)) (show_notice_steps (some old) text) =
      some 3 ∧
    show_notice_slot (some old) text = some (mark_all_notif text) := by
  simp [show_notice_steps, find_index, op_installs, op_destroys, op_displays,
    mark_all_notif, show_notice_slot]

/-- C5: after the dispatcher processes any finite sequence of ShowNotice
Commands starting from an empty slot, the slot holds the notification built
from the most recent text (none when the sequence is empty) and exactly the
earlier notifications have been destroyed. -/
theorem notice_slot_invariant (texts : List String) :
    (run_ticks texts.length ⟨⟨texts.map Action.ShowNotice, true⟩, none⟩).1.notice =
      texts.getLast?.map mark_all_notif ∧
    destroyed_in
        (run_ticks texts.length ⟨⟨texts.map Action.ShowNotice, true⟩, none⟩).2 =
      texts.dropLast.map mark_all_notif := by
  have hlen : texts.length = (texts.map Action.ShowNotice).length := by simp
  rw [hlen, run_ticks_apply]
  have h := show_seq texts none
  cases texts with
  | nil => simpa using h
  | cons t ts =>
    obtain ⟨h1, h2⟩ := h
    refine ⟨?_, by simpa using h2⟩
    cases hlast : (t :: ts).getLast? with
    | none => simp at hlast
    | some u => simp_all

/-- C6: when the queue is empty and the producer side is disconnected, the
poll tick hits the unreachable panic: it does not return Continue, emits no
downstream call and leaves the state unchanged. -/
theorem disconnected_channel_panics (s : AppState) (h1 : s.chan.queue = [])
    (h2 : s.chan.connected = false) :
    setup_action_channel s =
      (PollOutcome.panicked "How the hell was the action channel dropped.", s, []) := by
  simp [setup_action_channel, try_recv, h1, h2]

/-- C6 witness: instantiation at the empty disconnected channel. -/
theorem disconnected_channel_panics_witness :
    setup_action_channel ⟨⟨[], false⟩, none⟩ =
      (PollOutcome.panicked "How the hell was the action channel dropped.",
        ⟨⟨[], false⟩, none⟩, []) :=
  disconnected_channel_panics ⟨⟨[], false⟩, none⟩ rfl rfl

/-- C7: when the queue is empty and the channel is still connected, the poll
tick returns Continue(true), leaves the whole state (channel and
notification slot) unchanged and makes no downstream call. -/
theorem empty_channel_no_side_effects (s : AppState) (h1 : s.chan.queue = [])
    (h2 : s.chan.connected = true) :
    setup_action_channel s = (PollOutcome.Continue true, s, []) := by
  simp [setup_action_channel, try_recv, h1, h2]

/-- C7 witness: instantiation at the empty connected channel. -/
theorem empty_channel_no_side_effects_witness :
    setup_action_channel ⟨⟨[], true⟩, none⟩ =
      (PollOutcome.Continue true, ⟨⟨[], true⟩, none⟩, []) :=
  empty_channel_no_side_effects ⟨⟨[], true⟩, none⟩ rfl rfl

/-- C8: the dispatcher passes payloads through unmodified: a queued
Login(name, pass) produces exactly one Header::login call with that pair,
and a queued SwitchStackSub((id, name, path)) produces exactly one
View::switch_stack_sub call with those three values. -/
theorem payload_passthrough (s1 s2 : AppState) (name pass : String) (id : Nat)
    (nm path : String) (r1 r2 : List Action)
    (h1 : s1.chan.queue = Action.Login name pass :: r1)
    (h2 : s2.chan.queue = Action.SwitchStackSub (id, nm, path) :: r2) :
    (setup_action_channel s1).2.2 = [Event.header_login name pass] ∧
    (setup_action_channel s2).2.2 = [Event.view_switch_stack_sub id nm path] := by
  constructor <;> simp [setup_action_channel, try_recv, h1, h2, handle_action]

/-- C8 witness: instantiation at Login alice pw and
SwitchStackSub 5 Chill /img/chill.png. -/
theorem payload_passthrough_witness :
    (setup_action_channel ⟨⟨[Action.Login "alice" "pw"], true⟩, none⟩).2.2 =
        [Event.header_login "alice" "pw"] ∧
    (setup_action_channel
        ⟨⟨[Action.SwitchStackSub (5, "Chill", "/img/chill.png")], true⟩, none⟩).2.2 =
        [Event.view_switch_stack_sub 5 "Chill" "/img/chill.png"] :=
  payload_passthrough ⟨⟨[Action.Login "alice" "pw"], true⟩, none⟩
    ⟨⟨[Action.SwitchStackSub (5, "Chill", "/img/chill.png")], true⟩, none⟩
    "alice" "pw" 5 "Chill" "/img/chill.png" [] [] rfl rfl

/-- C9: Commands sent by a single producer into an initially empty channel
are applied by successive poll ticks exactly in send order: running one tick
per sent Command equals applying the Commands through handle_action in list
order, and the queue is drained completely. -/
theorem single_producer_fifo (cmds : List Action) (slot : Option InAppNotification) :
    run_ticks cmds.length
        ⟨List.foldl send { queue := [], connected := true } cmds, slot⟩ =
      (⟨⟨[], true⟩, (apply_in_order slot cmds).1⟩, (apply_in_order slot cmds).2) := by
  rw [foldl_send]
  simpa using run_ticks_apply cmds slot

/-- C10: App::new allocates a single u8 cell initialized to zero and hands
the same shared reference to the View, Header and Player surfaces; advance
increments modulo 2 to the 8, so after 256 advances a previously issued
generation compares equal to the current one again. -/
theorem guard_shared_u8_wraparound (g : Nat) (h : g < 256) :
    app_new_guard.view_ref = app_new_guard.data_ref ∧
    app_new_guard.header_ref = app_new_guard.data_ref ∧
    app_new_guard.player_ref = app_new_guard.data_ref ∧
    app_new_guard.cells = [0] ∧
    advance^[256] g = g := by
  refine ⟨rfl, rfl, rfl, rfl, ?_⟩
  rw [advance_iterate 256 g h]
  omega

/-- C10 witness: instantiation at generation 7. -/
theorem guard_shared_u8_wraparound_witness :
    app_new_guard.view_ref = app_new_guard.data_ref ∧
    app_new_guard.header_ref = app_new_guard.data_ref ∧
    app_new_guard.player_ref = app_new_guard.data_ref ∧
    app_new_guard.cells = [0] ∧
    advance^[256] 7 = 7 :=
  guard_shared_u8_wraparound 7 (by decide)

end NCMGtk
